import Mathlib

/-!
Verification of the round-trip trading scripts of the repository.

The scripts repeatedly buy and then sell a spot asset to generate trading
volume.  We embed the observable behaviour of the three round-trip scripts
(`ueth_roundtrip_trade.py`, `usde_roundtrip_trade.py`,
`ueth_50_roundtrips.py`) shallowly in Lean: every external call the script
makes (balance query, mid-price query, order submission outcome) is a field
of an environment record, and each script body becomes a pure function from
that environment to its result together with the list of orders it
submitted.  Monetary quantities are modelled with rationals.
-/

/-- One entry of the `spot_user_state(address)["balances"]` list returned by
the account-state provider: a coin name, the total amount and the amount on
hold.  The scripts only ever read the `total` field. -/
structure BalanceEntry where
  coin : String
  total : ℚ
  held : ℚ
deriving DecidableEq, Repr

/-- Function `get_balance(info, address, token_name)`: scan the balance list for the
first entry whose coin matches `token_name` and return its `total`; return
`0` when no entry matches.  The same function appears verbatim in every
script. -/
def get_balance : List BalanceEntry → String → ℚ
  | [], _ => 0
  | b :: rest, token_name =>
      if b.coin = token_name then b.total else get_balance rest token_name

/-- An order submitted through `exchange.market_open`: side, size in base
units and the slippage tolerance (always `0.001` in the scripts). -/
structure Order where
  is_buy : Bool
  sz : ℚ
  slippage : ℚ
deriving DecidableEq, Repr

/-- The failure kinds a round trip can surface.  `fillTimeout` never occurs
in the code; it is included so that claims distinguishing it from
`noFillObserved` are statable.  `nameError` models the Python `NameError`
raised by the USDE script's references to undefined variables. -/
inductive Err where
  | insufficientFunds
  | buyRejected
  | sellRejected
  | noFillObserved
  | fillTimeout
  | nameError
deriving DecidableEq, Repr

/-- Python expression `math.floor(x * 10000) / 10000`: round a size down to
the asset's minimum tradable increment of `0.0001`.  Written with the
executable `Rat.floor`, which agrees with `⌊·⌋` on `ℚ`. -/
def floorQ4 (x : ℚ) : ℚ := ((x * 10000).floor : ℚ) / 10000

/-- The executable rational floor agrees with the floor of the order
structure. -/
lemma ratFloor_eq_intFloor (q : ℚ) : q.floor = ⌊q⌋ := by
  rw [Rat.floor_def', Rat.floor_def]

/-- Rounding down to the minimum increment never increases a size. -/
lemma floorQ4_le (x : ℚ) : floorQ4 x ≤ x := by
  rw [floorQ4, ratFloor_eq_intFloor, div_le_iff₀ (by norm_num : (0:ℚ) < 10000)]
  exact Int.floor_le (x * 10000)

/-- Unfolding of `floorQ4` in terms of the order-theoretic floor. -/
lemma floorQ4_eq (x : ℚ) : floorQ4 x = (⌊x * 10000⌋ : ℚ) / 10000 := by
  rw [floorQ4, ratFloor_eq_intFloor]

namespace Ueth50

/-!  Embedding of `ueth_50_roundtrips.py`. -/

/-- The external world as observed by one execution of
`execute_single_roundtrip`: the account's balance list before the trade,
the UETH mid price, whether the venue accepted each order, and the
account's balance lists after the buy leg and after the sell leg.  The
script reads only `balancesBefore`, `price` and `balancesAfterSell`; the
post-buy snapshot is carried so that the base-asset delta the script never
inspects is still expressible. -/
structure TripEnv where
  balancesBefore : List BalanceEntry
  price : ℚ
  buyOk : Bool
  balancesAfterBuy : List BalanceEntry
  sellOk : Bool
  balancesAfterSell : List BalanceEntry
deriving DecidableEq, Repr

/-- The dictionary returned by `execute_single_roundtrip`: success flag,
generated volume, cost, and (for the failure branch) which exception was
raised.  Failures return volume `0` and cost `0`. -/
structure TripResult where
  success : Bool
  volume : ℚ
  cost : ℚ
  error : Option Err
deriving DecidableEq, Repr

/-- The failure dictionary `{'success': False, 'error': …, 'volume': 0,
'cost': 0}`. -/
def failResult (e : Err) : TripResult :=
  { success := false, volume := 0, cost := 0, error := some e }

/-- Function `execute_single_roundtrip`: read the USDC balance, raise if it is below
`1`, size the trade as `floor((usdc_before / price) * 10000) / 10000`, buy,
then sell the same amount, and on success report
`volume = amount * price * 2` and `cost = usdc_before - usdc_after`.
Returns the result together with the orders submitted. -/
def execute_single_roundtrip (env : TripEnv) : TripResult × List Order :=
  let usdc_before := get_balance env.balancesBefore "USDC"
  if usdc_before < 1 then (failResult .insufficientFunds, [])
  else
    let ueth_price := env.price
    let estimated_ueth_amount := usdc_before / ueth_price
    let ueth_trade_amount := floorQ4 estimated_ueth_amount
    let buyOrder : Order := { is_buy := true, sz := ueth_trade_amount, slippage := 1/1000 }
    if ¬ env.buyOk then (failResult .buyRejected, [buyOrder])
    else
      let sellOrder : Order := { is_buy := false, sz := ueth_trade_amount, slippage := 1/1000 }
      if ¬ env.sellOk then (failResult .sellRejected, [buyOrder, sellOrder])
      else
        let usdc_after := get_balance env.balancesAfterSell "USDC"
        let trade_cost := usdc_before - usdc_after
        let volume_generated := ueth_trade_amount * ueth_price * 2
        ({ success := true, volume := volume_generated, cost := trade_cost,
           error := none }, [buyOrder, sellOrder])

/-- The running statistics of `main`'s batch loop: cumulative volume and
cost, success and failure counters, and the list of per-trade results. -/
structure BatchState where
  total_volume : ℚ
  total_cost : ℚ
  successful_trades : ℕ
  failed_trades : ℕ
  trade_results : List TripResult
deriving DecidableEq, Repr

/-- The counters before the loop starts. -/
def batchInit : BatchState :=
  { total_volume := 0, total_cost := 0, successful_trades := 0,
    failed_trades := 0, trade_results := [] }

/-- The batch loop of `main`: for each round-trip environment in turn,
execute the round trip, append its result, then either accumulate the
success or record the failure and `break` out of the loop. -/
def runBatch : List TripEnv → BatchState → BatchState
  | [], s => s
  | env :: rest, s =>
      let r := (execute_single_roundtrip env).1
      let s' := { s with trade_results := s.trade_results ++ [r] }
      if r.success then
        runBatch rest
          { s' with successful_trades := s'.successful_trades + 1,
                    total_volume := s'.total_volume + r.volume,
                    total_cost := s'.total_cost + r.cost }
      else
        { s' with failed_trades := s'.failed_trades + 1 }

end Ueth50

namespace UethRoundtrip

/-!  Embedding of `ueth_roundtrip_trade.py` (`main`). -/

/-- The external world as observed by one run of `main`: the UETH mid
price, the initial USDC and UETH balances, whether the venue accepted each
order, and the balances read back after the buy wait and after the sell
wait. -/
structure Env where
  price : ℚ
  initial_usdc : ℚ
  initial_ueth : ℚ
  buyOk : Bool
  usdc_after_buy : ℚ
  ueth_after_buy : ℚ
  sellOk : Bool
  final_usdc : ℚ
  final_ueth : ℚ
deriving DecidableEq, Repr

/-- The quantities the script reports when the round trip completes:
the observed bought quantity, the quote spent on the buy leg, the quote
received on the sell leg, the total volume `usdc_spent + usdc_received`,
and the net cost `-(final_usdc - initial_usdc)`. -/
structure Summary where
  actual_ueth_bought : ℚ
  usdc_spent : ℚ
  usdc_received : ℚ
  total_volume : ℚ
  net_cost : ℚ
deriving DecidableEq, Repr

/-- Function `main`: size the trade as
`floor((initial_usdc / price) * 10000) / 10000`, raise if `initial_usdc < 1`, buy that amount, check that the
observed UETH delta is positive, then sell **the same rounded amount**
(`sz=ueth_trade_amount`, "Use exact same rounded amount"), and report the
summary computed from the four balance snapshots.  Returns the outcome and
the orders submitted. -/
def main (env : Env) : Except Err Summary × List Order :=
  let trade_usdc_amount := env.initial_usdc
  let estimated_ueth_amount := trade_usdc_amount / env.price
  let ueth_trade_amount := floorQ4 estimated_ueth_amount
  if trade_usdc_amount < 1 then (.error .insufficientFunds, [])
  else
    let buyOrder : Order := { is_buy := true, sz := ueth_trade_amount, slippage := 1/1000 }
    if ¬ env.buyOk then (.error .buyRejected, [buyOrder])
    else
      let actual_ueth_bought := env.ueth_after_buy - env.initial_ueth
      let usdc_spent := env.initial_usdc - env.usdc_after_buy
      if actual_ueth_bought ≤ 0 then (.error .noFillObserved, [buyOrder])
      else
        let sellOrder : Order := { is_buy := false, sz := ueth_trade_amount, slippage := 1/1000 }
        if ¬ env.sellOk then (.error .sellRejected, [buyOrder, sellOrder])
        else
          let usdc_received := env.final_usdc - env.usdc_after_buy
          let net_usdc_change := env.final_usdc - env.initial_usdc
          let total_volume := usdc_spent + usdc_received
          (.ok { actual_ueth_bought := actual_ueth_bought,
                 usdc_spent := usdc_spent,
                 usdc_received := usdc_received,
                 total_volume := total_volume,
                 net_cost := -net_usdc_change }, [buyOrder, sellOrder])

end UethRoundtrip

namespace UsdeRoundtrip

/-!  Embedding of `usde_roundtrip_trade.py` (`main`).

The script is copy-paste drift from the UETH script: it reads
`initial_ueth` (the UETH balance) but after the buy refers to the
undefined name `initial_usde`, so once the buy leg has been submitted and
accepted the line `actual_usde_bought = usde_after_buy - initial_usde`
raises `NameError` and the enclosing handler reports "TRADE FAILED" —
the sell is never reached. -/

/-- The external world for one run: mid price, initial USDC and UETH
balances (the script reads UETH, not USDE, before the trade), the
account's actual USDE balance before the trade (never read by the script,
carried so the true fill delta is expressible), whether the venue accepted
the buy, and the balances read back after the buy wait. -/
structure Env where
  price : ℚ
  initial_usdc : ℚ
  initial_ueth : ℚ
  world_initial_usde : ℚ
  buyOk : Bool
  usdc_after_buy : ℚ
  usde_after_buy : ℚ
deriving DecidableEq, Repr

/-- Function `main`: size the buy as the unrounded quotient
`initial_usdc / price`,
raise if `initial_usdc < 1`, submit the buy, read the post-buy balances,
then unconditionally raise `NameError` at the reference to the undefined
`initial_usde`.  No sell order can ever be submitted. -/
def main (env : Env) : Except Err Unit × List Order :=
  let trade_usdc_amount := env.initial_usdc
  let estimated_ueth_amount := trade_usdc_amount / env.price
  if trade_usdc_amount < 1 then (.error .insufficientFunds, [])
  else
    let buyOrder : Order := { is_buy := true, sz := estimated_ueth_amount, slippage := 1/1000 }
    if ¬ env.buyOk then (.error .buyRejected, [buyOrder])
    else
      (.error .nameError, [buyOrder])

end UsdeRoundtrip

namespace Ueth50

/-- A round-trip environment on which `execute_single_roundtrip` succeeds:
100 USDC available, UETH at 3000, both orders accepted. -/
def envOK : TripEnv :=
  { balancesBefore := [⟨"USDC", 100, 0⟩], price := 3000, buyOk := true,
    balancesAfterBuy := [⟨"USDC", 1, 0⟩, ⟨"UETH", 333/10000, 0⟩], sellOk := true,
    balancesAfterSell := [⟨"USDC", 99, 0⟩] }

/-- A round-trip environment on which `execute_single_roundtrip` fails: the
account holds no USDC at all, so the insufficient-funds check fires. -/
def envBad : TripEnv :=
  { balancesBefore := [], price := 3000, buyOk := true,
    balancesAfterBuy := [], sellOk := true, balancesAfterSell := [] }

/-- Running the batch over a block of succeeding round trips followed by a
failing one: the counters advance by the block length, the failure counter
by one, and exactly one result is recorded per attempt. -/
lemma runBatch_split (pre : List TripEnv) (bad : TripEnv) (rest : List TripEnv) :
    ∀ s : BatchState, (∀ e ∈ pre, (execute_single_roundtrip e).1.success = true) →
      (execute_single_roundtrip bad).1.success = false →
      (runBatch (pre ++ bad :: rest) s).successful_trades = s.successful_trades + pre.length ∧
      (runBatch (pre ++ bad :: rest) s).failed_trades = s.failed_trades + 1 ∧
      (runBatch (pre ++ bad :: rest) s).trade_results.length =
        s.trade_results.length + pre.length + 1 := by
  induction pre with
  | nil =>
      intro s _ hbad
      simp [runBatch, hbad]
  | cons e pre ih =>
      intro s hpre hbad
      have he : (execute_single_roundtrip e).1.success = true := hpre e (by simp)
      have h := ih
        { s with trade_results := s.trade_results ++ [(execute_single_roundtrip e).1],
                 successful_trades := s.successful_trades + 1,
                 total_volume := s.total_volume + (execute_single_roundtrip e).1.volume,
                 total_cost := s.total_cost + (execute_single_roundtrip e).1.cost }
        (fun x hx => hpre x (by simp [hx])) hbad
      simp only [List.cons_append, runBatch, he, if_true, List.append_eq]
      simp only [List.append_eq] at h
      refine ⟨?_, ?_, ?_⟩
      · rw [h.1]; simp; omega
      · rw [h.2.1]
      · rw [h.2.2]; simp; omega

/-- Every batch step appends exactly one result and bumps exactly one of the
two counters, so the result count always equals their sum. -/
lemma runBatch_count (l : List TripEnv) :
    ∀ s : BatchState, s.trade_results.length = s.successful_trades + s.failed_trades →
      (runBatch l s).trade_results.length =
        (runBatch l s).successful_trades + (runBatch l s).failed_trades := by
  induction l with
  | nil => intro s h; simpa [runBatch] using h
  | cons e rest ih =>
      intro s h
      by_cases he : (execute_single_roundtrip e).1.success = true
      · simp only [runBatch, he, if_true]
        exact ih _ (by simp [h]; omega)
      · simp [runBatch, he, h]
        omega

end Ueth50

/-- C9.  Claim: for every account and every asset name, `balanceOf` returns
a zero balance when the asset is absent from the account's balance set,
rather than raising an error.  In the code, `get_balance` scans the balance
list and returns `0.0` when no entry matches the requested coin; the Python
function returns the plain total, so the zero balance is the number `0`. -/
theorem c9_absent_asset_zero_balance (balances : List BalanceEntry) (name : String)
    (h : ∀ b ∈ balances, b.coin ≠ name) : get_balance balances name = 0 := by
  induction balances with
  | nil => rfl
  | cons b rest ih =>
      have hb : b.coin ≠ name := h b (by simp)
      simpa [get_balance, hb] using ih (fun x hx => h x (by simp [hx]))

/-- Witness for C9: an account holding only UETH has USDC balance `0`. -/
theorem c9_witness :
    (∀ b ∈ [({coin := "UETH", total := 5, held := 0} : BalanceEntry)], b.coin ≠ "USDC") ∧
    get_balance [({coin := "UETH", total := 5, held := 0} : BalanceEntry)] "USDC" = 0 :=
  ⟨by decide, c9_absent_asset_zero_balance _ _ (by decide)⟩

/-- C6.  Claim: after every batch step, `attempted = succeeded + failed` and
the number of recorded results equals `attempted`.  The loop appends one
result per attempt, so `attempted` is the length of `trade_results`; the
theorem states that this length equals `successful_trades + failed_trades`
for the batch state produced by any sequence of round-trip environments
(prefixes of a run give exactly the intermediate states, since the loop
stops at the first failure). -/
theorem c6_attempted_eq_succeeded_plus_failed (l : List Ueth50.TripEnv) :
    (Ueth50.runBatch l Ueth50.batchInit).trade_results.length =
      (Ueth50.runBatch l Ueth50.batchInit).successful_trades +
        (Ueth50.runBatch l Ueth50.batchInit).failed_trades :=
  Ueth50.runBatch_count l Ueth50.batchInit (by simp [Ueth50.batchInit])

/-- Witness for C6 at a concrete three-trip batch whose third trip fails. -/
theorem c6_witness :
    (Ueth50.runBatch [Ueth50.envOK, Ueth50.envOK, Ueth50.envBad] Ueth50.batchInit).trade_results.length =
      (Ueth50.runBatch [Ueth50.envOK, Ueth50.envOK, Ueth50.envBad] Ueth50.batchInit).successful_trades +
        (Ueth50.runBatch [Ueth50.envOK, Ueth50.envOK, Ueth50.envBad] Ueth50.batchInit).failed_trades :=
  c6_attempted_eq_succeeded_plus_failed [Ueth50.envOK, Ueth50.envOK, Ueth50.envBad]

/-- C5.  Claim: for every batch and every index `k`, if round trips `1`
through `k-1` succeed and round trip `k` fails, the batch records exactly
`k-1` successes and `1` failure and attempts no further round trips.  The
environment list is split as `pre ++ bad :: rest` with every trip in `pre`
succeeding and the trip on `bad` failing; the final state has
`successful_trades = pre.length`, `failed_trades = 1`, and exactly
`pre.length + 1` recorded results — one per attempt, so the trips in `rest`
are never attempted. -/
theorem c5_stop_on_first_failure (pre : List Ueth50.TripEnv) (bad : Ueth50.TripEnv)
    (rest : List Ueth50.TripEnv)
    (hpre : ∀ e ∈ pre, (Ueth50.execute_single_roundtrip e).1.success = true)
    (hbad : (Ueth50.execute_single_roundtrip bad).1.success = false) :
    (Ueth50.runBatch (pre ++ bad :: rest) Ueth50.batchInit).successful_trades = pre.length ∧
    (Ueth50.runBatch (pre ++ bad :: rest) Ueth50.batchInit).failed_trades = 1 ∧
    (Ueth50.runBatch (pre ++ bad :: rest) Ueth50.batchInit).trade_results.length =
      pre.length + 1 := by
  have h := Ueth50.runBatch_split pre bad rest Ueth50.batchInit hpre hbad
  simpa [Ueth50.batchInit] using h

/-- Witness for C5: a batch of five environments whose third round trip
fails yields exactly two successes, one failure, and three recorded
attempts. -/
theorem c5_witness :
    (∀ e ∈ [Ueth50.envOK, Ueth50.envOK], (Ueth50.execute_single_roundtrip e).1.success = true) ∧
    (Ueth50.execute_single_roundtrip Ueth50.envBad).1.success = false ∧
    (Ueth50.runBatch [Ueth50.envOK, Ueth50.envOK, Ueth50.envBad, Ueth50.envOK, Ueth50.envOK]
        Ueth50.batchInit).successful_trades = 2 ∧
    (Ueth50.runBatch [Ueth50.envOK, Ueth50.envOK, Ueth50.envBad, Ueth50.envOK, Ueth50.envOK]
        Ueth50.batchInit).failed_trades = 1 ∧
    (Ueth50.runBatch [Ueth50.envOK, Ueth50.envOK, Ueth50.envBad, Ueth50.envOK, Ueth50.envOK]
        Ueth50.batchInit).trade_results.length = 3 := by
  have h := c5_stop_on_first_failure [Ueth50.envOK, Ueth50.envOK] Ueth50.envBad
    [Ueth50.envOK, Ueth50.envOK] (by decide) (by decide)
  exact ⟨by decide, by decide, by simpa using h.1, h.2.1, by simpa using h.2.2⟩

namespace Ueth50

/-- Sum of the volumes of the successful results only: a failed round trip
contributes `0`. -/
def succVolume (rs : List TripResult) : ℚ :=
  (rs.map fun r => if r.success then r.volume else 0).sum

/-- Sum of the costs of the successful results only: a failed round trip
contributes `0`. -/
def succCost (rs : List TripResult) : ℚ :=
  (rs.map fun r => if r.success then r.cost else 0).sum

/-- Structure of any state the batch loop can reach from a state with no
failure recorded: at most one failure, all results before the last one are
successes, and the running totals are the sums over the successful
results. -/
lemma runBatch_structure (l : List TripEnv) :
    ∀ s : BatchState, s.failed_trades = 0 → (∀ r ∈ s.trade_results, r.success = true) →
      s.total_volume = succVolume s.trade_results →
      s.total_cost = succCost s.trade_results →
      (runBatch l s).failed_trades ≤ 1 ∧
      ((∀ r ∈ (runBatch l s).trade_results, r.success = true) ∧ (runBatch l s).failed_trades = 0 ∨
        ∃ rs r, (runBatch l s).trade_results = rs ++ [r] ∧ (∀ x ∈ rs, x.success = true) ∧
          r.success = false ∧ (runBatch l s).failed_trades = 1) ∧
      (runBatch l s).total_volume = succVolume (runBatch l s).trade_results ∧
      (runBatch l s).total_cost = succCost (runBatch l s).trade_results := by
  induction l with
  | nil =>
      intro s hf hall hv hc
      exact ⟨by simp [runBatch, hf], Or.inl ⟨by simpa [runBatch] using hall, by simp [runBatch, hf]⟩,
        by simpa [runBatch] using hv, by simpa [runBatch] using hc⟩
  | cons e rest ih =>
      intro s hf hall hv hc
      by_cases he : (execute_single_roundtrip e).1.success = true
      · simp only [runBatch, he, if_true]
        refine ih _ (by simp [hf]) ?_ ?_ ?_
        · intro r hr
          rcases List.mem_append.mp hr with h1 | h1
          · exact hall r h1
          · simp at h1; subst h1; exact he
        · simp [succVolume, hv, he]
        · simp [succCost, hc, he]
      · have he' : (execute_single_roundtrip e).1.success = false := by
          cases hse : (execute_single_roundtrip e).1.success
          · rfl
          · exact absurd hse he
        refine ⟨by simp [runBatch, he', hf], Or.inr ⟨s.trade_results, (execute_single_roundtrip e).1,
          by simp [runBatch, he'], hall, he', by simp [runBatch, he', hf]⟩, ?_, ?_⟩
        · simp [runBatch, he', succVolume, hv]
        · simp [runBatch, he', succCost, hc]

end Ueth50

/-- C10.  Claim: in every batch at most one round trip is recorded as
failed; when one is, the failed result is the last element of the recorded
results; and failed round trips contribute `0` to the running totals.  The
theorem states, for any environment list run from the initial state: the
failure counter is at most `1`; either all recorded results are successes
with no failure counted, or the results split as successes followed by a
single final failed result; and the running totals equal the sums over the
successful results only. -/
theorem c10_single_failure_last_and_totals (l : List Ueth50.TripEnv) :
    (Ueth50.runBatch l Ueth50.batchInit).failed_trades ≤ 1 ∧
    ((∀ r ∈ (Ueth50.runBatch l Ueth50.batchInit).trade_results, r.success = true) ∧
        (Ueth50.runBatch l Ueth50.batchInit).failed_trades = 0 ∨
      ∃ rs r, (Ueth50.runBatch l Ueth50.batchInit).trade_results = rs ++ [r] ∧
        (∀ x ∈ rs, x.success = true) ∧ r.success = false ∧
        (Ueth50.runBatch l Ueth50.batchInit).failed_trades = 1) ∧
    (Ueth50.runBatch l Ueth50.batchInit).total_volume =
      Ueth50.succVolume (Ueth50.runBatch l Ueth50.batchInit).trade_results ∧
    (Ueth50.runBatch l Ueth50.batchInit).total_cost =
      Ueth50.succCost (Ueth50.runBatch l Ueth50.batchInit).trade_results :=
  Ueth50.runBatch_structure l Ueth50.batchInit rfl (by simp [Ueth50.batchInit])
    (by simp [Ueth50.batchInit, Ueth50.succVolume]) (by simp [Ueth50.batchInit, Ueth50.succCost])

/-- Witness for C10 at a concrete batch whose third round trip fails. -/
theorem c10_witness :
    (Ueth50.runBatch [Ueth50.envOK, Ueth50.envOK, Ueth50.envBad] Ueth50.batchInit).failed_trades ≤ 1 ∧
    ((∀ r ∈ (Ueth50.runBatch [Ueth50.envOK, Ueth50.envOK, Ueth50.envBad] Ueth50.batchInit).trade_results,
          r.success = true) ∧
        (Ueth50.runBatch [Ueth50.envOK, Ueth50.envOK, Ueth50.envBad] Ueth50.batchInit).failed_trades = 0 ∨
      ∃ rs r,
        (Ueth50.runBatch [Ueth50.envOK, Ueth50.envOK, Ueth50.envBad] Ueth50.batchInit).trade_results =
          rs ++ [r] ∧ (∀ x ∈ rs, x.success = true) ∧ r.success = false ∧
        (Ueth50.runBatch [Ueth50.envOK, Ueth50.envOK, Ueth50.envBad] Ueth50.batchInit).failed_trades = 1) ∧
    (Ueth50.runBatch [Ueth50.envOK, Ueth50.envOK, Ueth50.envBad] Ueth50.batchInit).total_volume =
      Ueth50.succVolume (Ueth50.runBatch [Ueth50.envOK, Ueth50.envOK, Ueth50.envBad] Ueth50.batchInit).trade_results ∧
    (Ueth50.runBatch [Ueth50.envOK, Ueth50.envOK, Ueth50.envBad] Ueth50.batchInit).total_cost =
      Ueth50.succCost (Ueth50.runBatch [Ueth50.envOK, Ueth50.envOK, Ueth50.envBad] Ueth50.batchInit).trade_results :=
  c10_single_failure_last_and_totals [Ueth50.envOK, Ueth50.envOK, Ueth50.envBad]

/-- A run of the single-trip UETH script in which everything the venue does
is benign: 115 USDC available at a mid of 3000, both orders accepted, but
the buy leg fills for only 0.03 UETH — less than the requested 0.0383. -/
def uethEnvA : UethRoundtrip.Env :=
  { price := 3000, initial_usdc := 115, initial_ueth := 0, buyOk := true,
    usdc_after_buy := 25, ueth_after_buy := 3/100, sellOk := true,
    final_usdc := 114, final_ueth := 0 }

/-- Evaluation rule for the sizing floor: if `n ≤ x * 10000 < n + 1` then
rounding `x` down to the minimum increment yields `n / 10000`. -/
lemma floorQ4_eval (x : ℚ) (n : ℤ) (h1 : (n:ℚ) ≤ x * 10000) (h2 : x * 10000 < n + 1) :
    floorQ4 x = (n:ℚ)/10000 := by
  rw [floorQ4_eq, Int.floor_eq_iff.mpr ⟨h1, h2⟩]

/-- Counterexample to C1.  In `ueth_roundtrip_trade.py` the buy leg is
confirmed with an observed base-asset delta of `0.03`, yet the sell order
is submitted for the originally requested rounded size `0.0383`, not for
the observed delta: the orders are a buy and a sell both of size
`383/10000`, while the delta is `3/100 ≠ 383/10000`. -/
theorem c1_counterexample :
    (UethRoundtrip.main uethEnvA).2 =
      [{ is_buy := true, sz := 383/10000, slippage := 1/1000 },
       { is_buy := false, sz := 383/10000, slippage := 1/1000 }] ∧
    uethEnvA.ueth_after_buy - uethEnvA.initial_ueth = 3/100 ∧
    (0:ℚ) < 3/100 ∧ ((383:ℚ)/10000 ≠ 3/100) := by
  refine ⟨?_, by norm_num [uethEnvA], by norm_num, by norm_num⟩
  have hfloor : floorQ4 (uethEnvA.initial_usdc / uethEnvA.price) = 383/10000 := by
    have h := floorQ4_eval (uethEnvA.initial_usdc / uethEnvA.price) 383
      (by norm_num [uethEnvA]) (by norm_num [uethEnvA])
    simpa using h
  simp only [UethRoundtrip.main]
  rw [hfloor]
  norm_num [uethEnvA]

/-- An account with 115 USDC free, mid price 3000, both orders accepted. -/
def env115 : Ueth50.TripEnv :=
  { balancesBefore := [⟨"USDC", 115, 0⟩], price := 3000, buyOk := true,
    balancesAfterBuy := [⟨"USDC", 1/10, 0⟩, ⟨"UETH", 383/10000, 0⟩], sellOk := true,
    balancesAfterSell := [⟨"USDC", 114, 0⟩] }

/-- The sell order of the single-trip run `uethEnvA`. -/
def sellA : Order := { is_buy := false, sz := 383/10000, slippage := 1/1000 }

/-- The sell order of the batch-script run `env115`. -/
def sell115 : Order :=
  { is_buy := false, sz := floorQ4 (get_balance env115.balancesBefore "USDC" / env115.price),
    slippage := 1/1000 }

/-- C1, amended.  In both UETH scripts the size submitted for the sell
order always equals the originally requested buy size — the rounded
estimate `floor((quote_balance / price) * 10000) / 10000` — regardless of
the observed base-asset delta of the buy leg.  (Only the USDE script's
sell path would use the observed delta, and that path is unreachable, see
C4.)  Stated for both scripts at once: every sell order submitted by
`ueth_roundtrip_trade.py` has the requested size computed from
`initial_usdc`, and every sell order submitted by `ueth_50_roundtrips.py`
has the requested size computed from the USDC balance read before the
trade. -/
theorem c1_amended_sell_size_is_requested (env : UethRoundtrip.Env) (o : Order)
    (ho : o ∈ (UethRoundtrip.main env).2) (hsell : o.is_buy = false)
    (env50 : Ueth50.TripEnv) (o50 : Order)
    (ho50 : o50 ∈ (Ueth50.execute_single_roundtrip env50).2) (hsell50 : o50.is_buy = false) :
    o.sz = floorQ4 (env.initial_usdc / env.price) ∧
    o50.sz = floorQ4 (get_balance env50.balancesBefore "USDC" / env50.price) := by
  constructor
  · unfold UethRoundtrip.main at ho
    by_cases h1 : env.initial_usdc < 1
    · simp [h1] at ho
    · by_cases h2 : env.buyOk
      · by_cases h3 : env.ueth_after_buy - env.initial_ueth ≤ 0
        · simp [h1, h2, h3] at ho
          subst ho; simp at hsell
        · by_cases h4 : env.sellOk
          · simp [h1, h2, h3, h4] at ho
            rcases ho with rfl | rfl
            · simp at hsell
            · rfl
          · simp [h1, h2, h3, h4] at ho
            rcases ho with rfl | rfl
            · simp at hsell
            · rfl
      · simp [h1, h2] at ho
        subst ho; simp at hsell
  · unfold Ueth50.execute_single_roundtrip at ho50
    by_cases h1 : get_balance env50.balancesBefore "USDC" < 1
    · simp [h1] at ho50
    · by_cases h2 : env50.buyOk
      · by_cases h3 : env50.sellOk
        · simp [h1, h2, h3] at ho50
          rcases ho50 with rfl | rfl
          · simp at hsell50
          · rfl
        · simp [h1, h2, h3] at ho50
          rcases ho50 with rfl | rfl
          · simp at hsell50
          · rfl
      · simp [h1, h2] at ho50
        subst ho50; simp at hsell50

/-- Witness for C1 (amended): the sell orders of two concrete runs — one
of the single-trip script, one of the batch script — both have the
requested rounded size. -/
theorem c1_witness :
    (sellA ∈ (UethRoundtrip.main uethEnvA).2 ∧ sellA.is_buy = false ∧
      sell115 ∈ (Ueth50.execute_single_roundtrip env115).2 ∧ sell115.is_buy = false) ∧
    sellA.sz = floorQ4 (uethEnvA.initial_usdc / uethEnvA.price) ∧
    sell115.sz = floorQ4 (get_balance env115.balancesBefore "USDC" / env115.price) := by
  have hfloor : floorQ4 (uethEnvA.initial_usdc / uethEnvA.price) = 383/10000 := by
    have h := floorQ4_eval (uethEnvA.initial_usdc / uethEnvA.price) 383
      (by norm_num [uethEnvA]) (by norm_num [uethEnvA])
    simpa using h
  have hmemA : sellA ∈ (UethRoundtrip.main uethEnvA).2 := by
    simp only [UethRoundtrip.main]
    rw [hfloor]
    norm_num [uethEnvA, sellA]
  have h1 : ¬ get_balance env115.balancesBefore "USDC" < 1 := by
    norm_num [env115, get_balance]
  have hmem50 : sell115 ∈ (Ueth50.execute_single_roundtrip env115).2 := by
    unfold Ueth50.execute_single_roundtrip
    simp [sell115, h1, show env115.buyOk = true from rfl, show env115.sellOk = true from rfl]
  exact ⟨⟨hmemA, rfl, hmem50, rfl⟩,
    c1_amended_sell_size_is_requested uethEnvA sellA hmemA rfl env115 sell115 hmem50 rfl⟩

/-- A run of the batch script's round trip with 100 USDC at a mid of 3000,
both orders accepted, in which the quote balance is 1 after the buy leg and
99 after the sell leg. -/
def c2_env : Ueth50.TripEnv :=
  { balancesBefore := [⟨"USDC", 100, 0⟩], price := 3000, buyOk := true,
    balancesAfterBuy := [⟨"USDC", 1, 0⟩, ⟨"UETH", 333/10000, 0⟩], sellOk := true,
    balancesAfterSell := [⟨"USDC", 99, 0⟩] }

/-- Counterexample to C2.  In `ueth_50_roundtrips.py` the reported volume
is `size * mid * 2`, not the sum of the quote-asset deltas of the two legs:
in this run the script reports volume `199.8` while
`quoteSpentOnBuy + quoteReceivedFromSell = 99 + 98 = 197`. -/
theorem c2_counterexample :
    (Ueth50.execute_single_roundtrip c2_env).1.success = true ∧
    (Ueth50.execute_single_roundtrip c2_env).1.volume = 999/5 ∧
    (get_balance c2_env.balancesBefore "USDC" - get_balance c2_env.balancesAfterBuy "USDC") +
      (get_balance c2_env.balancesAfterSell "USDC" - get_balance c2_env.balancesAfterBuy "USDC") =
      197 ∧
    ((999:ℚ)/5 ≠ 197) := by
  have hfloor : floorQ4 (get_balance c2_env.balancesBefore "USDC" / c2_env.price) = 333/10000 := by
    have h := floorQ4_eval (get_balance c2_env.balancesBefore "USDC" / c2_env.price) 333
      (by norm_num [c2_env, get_balance]) (by norm_num [c2_env, get_balance])
    simpa using h
  refine ⟨?_, ?_, by norm_num [c2_env, get_balance], by norm_num⟩
  · simp only [Ueth50.execute_single_roundtrip]
    norm_num [c2_env, get_balance]
  · simp only [Ueth50.execute_single_roundtrip]
    rw [hfloor]
    norm_num [c2_env, get_balance]

/-- C2, amended.  For every successful round trip, `costUsd` equals
`quoteSpentOnBuy - quoteReceivedFromSell` computed from the quote-asset
balance deltas of the two legs, in both scripts; `volumeUsd` equals
`quoteSpentOnBuy + quoteReceivedFromSell` in the single-trip script, but
the batch script instead reports `volumeUsd` as twice the requested size
times the mid price. -/
theorem c2_amended_cost_from_deltas (envU : UethRoundtrip.Env) (su : UethRoundtrip.Summary)
    (hU : (UethRoundtrip.main envU).1 = Except.ok su)
    (env50 : Ueth50.TripEnv)
    (h50 : (Ueth50.execute_single_roundtrip env50).1.success = true) :
    (su.total_volume =
        (envU.initial_usdc - envU.usdc_after_buy) + (envU.final_usdc - envU.usdc_after_buy) ∧
      su.net_cost =
        (envU.initial_usdc - envU.usdc_after_buy) - (envU.final_usdc - envU.usdc_after_buy)) ∧
    ((Ueth50.execute_single_roundtrip env50).1.cost =
        (get_balance env50.balancesBefore "USDC" - get_balance env50.balancesAfterBuy "USDC") -
        (get_balance env50.balancesAfterSell "USDC" -
          get_balance env50.balancesAfterBuy "USDC") ∧
      (Ueth50.execute_single_roundtrip env50).1.volume =
        floorQ4 (get_balance env50.balancesBefore "USDC" / env50.price) * env50.price * 2) := by
  constructor
  · unfold UethRoundtrip.main at hU
    by_cases h1 : envU.initial_usdc < 1
    · simp [h1] at hU
    · by_cases h2 : envU.buyOk
      · by_cases h3 : envU.ueth_after_buy - envU.initial_ueth ≤ 0
        · simp [h1, h2, h3] at hU
        · by_cases h4 : envU.sellOk
          · simp [h1, h2, h3, h4] at hU
            subst hU
            refine ⟨by simp, ?_⟩
            simp only
            ring
          · simp [h1, h2, h3, h4] at hU
      · simp [h1, h2] at hU
  · unfold Ueth50.execute_single_roundtrip at h50 ⊢
    by_cases h1 : get_balance env50.balancesBefore "USDC" < 1
    · simp [h1, Ueth50.failResult] at h50
    · by_cases h2 : env50.buyOk
      · by_cases h3 : env50.sellOk
        · simp [h1, h2, h3]
          try ring
        · simp [h1, h2, h3, Ueth50.failResult] at h50
      · simp [h1, h2, Ueth50.failResult] at h50

/-- The summary the single-trip UETH script reports on the run `uethEnvA`:
bought 0.03, spent 90, received 89, volume 179, net cost 1. -/
def c2_summary : UethRoundtrip.Summary :=
  { actual_ueth_bought := 3/100, usdc_spent := 90, usdc_received := 89,
    total_volume := 179, net_cost := 1 }

/-- Witness for C2 (amended) at the concrete runs above. -/
theorem c2_witness :
    (UethRoundtrip.main uethEnvA).1 = Except.ok c2_summary ∧
    (Ueth50.execute_single_roundtrip c2_env).1.success = true ∧
    (c2_summary.total_volume =
        (uethEnvA.initial_usdc - uethEnvA.usdc_after_buy) +
          (uethEnvA.final_usdc - uethEnvA.usdc_after_buy) ∧
      c2_summary.net_cost =
        (uethEnvA.initial_usdc - uethEnvA.usdc_after_buy) -
          (uethEnvA.final_usdc - uethEnvA.usdc_after_buy)) ∧
    ((Ueth50.execute_single_roundtrip c2_env).1.cost =
        (get_balance c2_env.balancesBefore "USDC" - get_balance c2_env.balancesAfterBuy "USDC") -
        (get_balance c2_env.balancesAfterSell "USDC" -
          get_balance c2_env.balancesAfterBuy "USDC") ∧
      (Ueth50.execute_single_roundtrip c2_env).1.volume =
        floorQ4 (get_balance c2_env.balancesBefore "USDC" / c2_env.price) * c2_env.price * 2) := by
  have hU : (UethRoundtrip.main uethEnvA).1 = Except.ok c2_summary := by
    simp only [UethRoundtrip.main]
    norm_num [uethEnvA, c2_summary]
  have h50 : (Ueth50.execute_single_roundtrip c2_env).1.success = true := by
    simp only [Ueth50.execute_single_roundtrip]
    norm_num [c2_env, get_balance]
  have h := c2_amended_cost_from_deltas uethEnvA c2_summary hU c2_env h50
  exact ⟨hU, h50, h.1, h.2⟩

/-- A run of the batch script's round trip in which the whole USDC balance
is on hold: total 5, held 5, so the spec's `available = total - held` is
`0`. -/
def c3_env : Ueth50.TripEnv :=
  { balancesBefore := [⟨"USDC", 5, 5⟩], price := 3000, buyOk := true,
    balancesAfterBuy := [⟨"USDC", 5, 5⟩], sellOk := true,
    balancesAfterSell := [⟨"USDC", 5, 5⟩] }

/-- Counterexample to C3.  The script sizes from the raw `total` field and
never reads `held`: with total 5 entirely on hold (`total - held = 0 < 1`),
the claim demands an `InsufficientFunds` failure, but the script proceeds
and submits orders. -/
theorem c3_counterexample :
    (∃ b ∈ c3_env.balancesBefore, b.coin = "USDC" ∧ b.total - b.held < 1) ∧
    (Ueth50.execute_single_roundtrip c3_env).1.error ≠ some Err.insufficientFunds ∧
    (Ueth50.execute_single_roundtrip c3_env).1.success = true ∧
    (Ueth50.execute_single_roundtrip c3_env).2 ≠ [] := by
  refine ⟨⟨⟨"USDC", 5, 5⟩, by simp [c3_env], rfl, by norm_num⟩, ?_, ?_, ?_⟩ <;>
    simp only [Ueth50.execute_single_roundtrip] <;>
    norm_num [c3_env, get_balance] <;>
    simp

/-- C3, amended.  The quantity used at the sizing step is the raw `total`
USDC balance; the `held` amount is ignored.  The round trip fails with
`InsufficientFunds` exactly when that total is below 1, and otherwise the
first submitted order is a buy sized from the raw total:
`floor((total / price) * 10000) / 10000`. -/
theorem c3_amended_sizes_from_raw_total (env : Ueth50.TripEnv) :
    ((Ueth50.execute_single_roundtrip env).1.error = some Err.insufficientFunds ↔
      get_balance env.balancesBefore "USDC" < 1) ∧
    ((Ueth50.execute_single_roundtrip env).2.head? =
      if get_balance env.balancesBefore "USDC" < 1 then none
      else some { is_buy := true,
                  sz := floorQ4 (get_balance env.balancesBefore "USDC" / env.price),
                  slippage := 1/1000 }) := by
  unfold Ueth50.execute_single_roundtrip
  by_cases h1 : get_balance env.balancesBefore "USDC" < 1
  · simp [h1, Ueth50.failResult]
  · by_cases h2 : env.buyOk
    · by_cases h3 : env.sellOk
      · simp [h1, h2, h3]
      · simp [h1, h2, h3, Ueth50.failResult]
    · simp [h1, h2, Ueth50.failResult]

/-- Witness for C3 (amended) at the all-on-hold run: the error is not
`InsufficientFunds` because the raw total is 5 ≥ 1, and the first order is
the buy sized from the raw total. -/
theorem c3_witness :
    ((Ueth50.execute_single_roundtrip c3_env).1.error = some Err.insufficientFunds ↔
      get_balance c3_env.balancesBefore "USDC" < 1) ∧
    ((Ueth50.execute_single_roundtrip c3_env).2.head? =
      if get_balance c3_env.balancesBefore "USDC" < 1 then none
      else some { is_buy := true,
                  sz := floorQ4 (get_balance c3_env.balancesBefore "USDC" / c3_env.price),
                  slippage := 1/1000 }) :=
  c3_amended_sizes_from_raw_total c3_env

/-- A run of the unrounded USDE script at the spec's concrete sizing
numbers: 115 USDC available at a mid of 3000. -/
def c7_env : UsdeRoundtrip.Env :=
  { price := 3000, initial_usdc := 115, initial_ueth := 0, world_initial_usde := 0,
    buyOk := true, usdc_after_buy := 0, usde_after_buy := 0 }

/-- Counterexample to C7.  `usde_roundtrip_trade.py` submits the unrounded
quotient as the buy size: with available 115 and mid 3000 it submits
`115/3000 = 23/600 = 0.0383…`, not the rounded `0.0383 = 383/10000`
demanded by the claim for every round trip. -/
theorem c7_counterexample :
    (UsdeRoundtrip.main c7_env).2.head? =
      some { is_buy := true, sz := 23/600, slippage := 1/1000 } ∧
    floorQ4 (c7_env.initial_usdc / c7_env.price) = 383/10000 ∧
    ((23:ℚ)/600 ≠ 383/10000) := by
  refine ⟨?_, ?_, by norm_num⟩
  · simp only [UsdeRoundtrip.main]
    norm_num [c7_env]
  · have h := floorQ4_eval (c7_env.initial_usdc / c7_env.price) 383
      (by norm_num [c7_env]) (by norm_num [c7_env])
    simpa using h

/-- C7, amended.  In the batch script (and likewise the single-trip UETH
script), the submitted base size is the tentative size rounded down to the
minimum increment, `floor((total / price) * 10000) / 10000`, and therefore
`size * price ≤ total`: the notional never exceeds the quote balance used
for sizing.  With mid 3000 and balance 115 this size is `0.0383`.  The USDE
script instead submits the unrounded quotient `total / price`, whose
notional equals the balance exactly. -/
theorem c7_amended_rounds_down (env : Ueth50.TripEnv) (hp : 0 < env.price) :
    ((Ueth50.execute_single_roundtrip env).2.head? =
      if get_balance env.balancesBefore "USDC" < 1 then none
      else some { is_buy := true,
                  sz := floorQ4 (get_balance env.balancesBefore "USDC" / env.price),
                  slippage := 1/1000 }) ∧
    floorQ4 (get_balance env.balancesBefore "USDC" / env.price) * env.price ≤
      get_balance env.balancesBefore "USDC" := by
  constructor
  · unfold Ueth50.execute_single_roundtrip
    by_cases h1 : get_balance env.balancesBefore "USDC" < 1
    · simp [h1]
    · by_cases h2 : env.buyOk
      · by_cases h3 : env.sellOk
        · simp [h1, h2, h3]
        · simp [h1, h2, h3]
      · simp [h1, h2]
  · have h := floorQ4_le (get_balance env.balancesBefore "USDC" / env.price)
    calc floorQ4 (get_balance env.balancesBefore "USDC" / env.price) * env.price ≤
        (get_balance env.balancesBefore "USDC" / env.price) * env.price :=
          mul_le_mul_of_nonneg_right h (le_of_lt hp)
      _ = get_balance env.balancesBefore "USDC" := div_mul_cancel₀ _ (ne_of_gt hp)

/-- Witness for C7 (amended) at the spec's concrete numbers: price 3000 is
positive, the computed size is `383/10000 = 0.0383`, and its notional
`0.0383 * 3000 = 114.9` does not exceed the 115 available. -/
theorem c7_witness :
    (0:ℚ) < env115.price ∧
    ((Ueth50.execute_single_roundtrip env115).2.head? =
      if get_balance env115.balancesBefore "USDC" < 1 then none
      else some { is_buy := true,
                  sz := floorQ4 (get_balance env115.balancesBefore "USDC" / env115.price),
                  slippage := 1/1000 }) ∧
    floorQ4 (get_balance env115.balancesBefore "USDC" / env115.price) * env115.price ≤
      get_balance env115.balancesBefore "USDC" ∧
    floorQ4 (get_balance env115.balancesBefore "USDC" / env115.price) = 383/10000 := by
  have hp : (0:ℚ) < env115.price := by norm_num [env115]
  have h := c7_amended_rounds_down env115 hp
  refine ⟨hp, h.1, h.2, ?_⟩
  have he := floorQ4_eval (get_balance env115.balancesBefore "USDC" / env115.price) 383
    (by norm_num [env115, get_balance]) (by norm_num [env115, get_balance])
  simpa using he

/-- A run of the batch script's round trip in which the buy never fills:
the account state after the buy leg is identical to the state before it
(UETH delta zero), yet both orders are accepted by the venue. -/
def c8_env : Ueth50.TripEnv :=
  { balancesBefore := [⟨"USDC", 100, 0⟩, ⟨"UETH", 2, 0⟩], price := 3000, buyOk := true,
    balancesAfterBuy := [⟨"USDC", 100, 0⟩, ⟨"UETH", 2, 0⟩], sellOk := true,
    balancesAfterSell := [⟨"USDC", 100, 0⟩, ⟨"UETH", 2, 0⟩] }

/-- Counterexample to C8.  `ueth_50_roundtrips.py` never observes the
base-asset balance delta: in a run whose observed UETH delta after the buy
wait is `0`, the claim demands a `NoFillObserved` failure before any sell
order, but the script reports success, records no such error, and submits
the sell anyway (the submitted order sides are `[buy, sell]`). -/
theorem c8_counterexample :
    get_balance c8_env.balancesAfterBuy "UETH" - get_balance c8_env.balancesBefore "UETH" = 0 ∧
    (Ueth50.execute_single_roundtrip c8_env).1.success = true ∧
    (Ueth50.execute_single_roundtrip c8_env).1.error ≠ some Err.noFillObserved ∧
    (Ueth50.execute_single_roundtrip c8_env).2.map Order.is_buy = [true, false] := by
  refine ⟨by norm_num [c8_env, get_balance], ?_, ?_, ?_⟩ <;>
    simp only [Ueth50.execute_single_roundtrip] <;>
    norm_num [c8_env, get_balance] <;>
    simp

/-- C8, amended.  The single-trip UETH script does fail before the sell
when the observed base delta is not positive: with sufficient funds and an
accepted buy, a delta `≤ 0` makes `main` fail with `NoFillObserved` (and
with no other kind, in particular not `FillTimeout`), having submitted only
the buy order.  The batch script, by contrast, never inspects the delta:
with sufficient funds and both orders accepted it succeeds and submits the
sell unconditionally. -/
theorem c8_amended_nofill_only_single_trip (env : UethRoundtrip.Env)
    (h1 : ¬ env.initial_usdc < 1) (h2 : env.buyOk = true)
    (h3 : env.ueth_after_buy - env.initial_ueth ≤ 0)
    (env50 : Ueth50.TripEnv)
    (h4 : ¬ get_balance env50.balancesBefore "USDC" < 1)
    (h5 : env50.buyOk = true) (h6 : env50.sellOk = true) :
    ((UethRoundtrip.main env).1 = Except.error Err.noFillObserved ∧
      (UethRoundtrip.main env).2.map Order.is_buy = [true]) ∧
    ((Ueth50.execute_single_roundtrip env50).1.success = true ∧
      (Ueth50.execute_single_roundtrip env50).2.map Order.is_buy = [true, false]) := by
  constructor
  · unfold UethRoundtrip.main
    simp [h1, h2, h3]
  · unfold Ueth50.execute_single_roundtrip
    simp [h4, h5, h6]

/-- A run of the single-trip UETH script whose buy is accepted but fills
for nothing: the UETH balance stays at 1. -/
def noFillEnv : UethRoundtrip.Env :=
  { price := 3000, initial_usdc := 115, initial_ueth := 1, buyOk := true,
    usdc_after_buy := 115, ueth_after_buy := 1, sellOk := true,
    final_usdc := 115, final_ueth := 1 }

/-- Witness for C8 (amended) at the concrete runs above. -/
theorem c8_witness :
    (¬ noFillEnv.initial_usdc < 1 ∧ noFillEnv.buyOk = true ∧
      noFillEnv.ueth_after_buy - noFillEnv.initial_ueth ≤ 0 ∧
      ¬ get_balance c8_env.balancesBefore "USDC" < 1 ∧
      c8_env.buyOk = true ∧ c8_env.sellOk = true) ∧
    ((UethRoundtrip.main noFillEnv).1 = Except.error Err.noFillObserved ∧
      (UethRoundtrip.main noFillEnv).2.map Order.is_buy = [true]) ∧
    ((Ueth50.execute_single_roundtrip c8_env).1.success = true ∧
      (Ueth50.execute_single_roundtrip c8_env).2.map Order.is_buy = [true, false]) := by
  have ha : ¬ noFillEnv.initial_usdc < 1 := by norm_num [noFillEnv]
  have hb : noFillEnv.buyOk = true := rfl
  have hc : noFillEnv.ueth_after_buy - noFillEnv.initial_ueth ≤ 0 := by norm_num [noFillEnv]
  have hd : ¬ get_balance c8_env.balancesBefore "USDC" < 1 := by
    norm_num [c8_env, get_balance]
  have hee : c8_env.buyOk = true := rfl
  have hf : c8_env.sellOk = true := rfl
  exact ⟨⟨ha, hb, hc, hd, hee, hf⟩,
    c8_amended_nofill_only_single_trip noFillEnv ha hb hc c8_env hd hee hf⟩

/-- A run of the USDE script in which the venue accepts the buy and the buy
actually fills: the account's USDE balance rises from 0 to 100. -/
def c4_env : UsdeRoundtrip.Env :=
  { price := 1, initial_usdc := 100, initial_ueth := 0, world_initial_usde := 0,
    buyOk := true, usdc_after_buy := 0, usde_after_buy := 100 }

/-- C4, evaluated at the failing input.  In `usde_roundtrip_trade.py` the
buy leg fills (the account's USDE balance delta is `100 > 0`), yet the
round trip aborts with the `NameError` raised by the reference to the
undefined variable `initial_usde` before any sell order is submitted: the
only submitted order is the buy, so the round trip ends holding the
acquired base-asset position — contradicting both the claim and the
script's own docstring ("Immediately sell all USDE back to USDC"). -/
theorem c4_code_bug_eval :
    (0:ℚ) < c4_env.usde_after_buy - c4_env.world_initial_usde ∧
    (UsdeRoundtrip.main c4_env).1 = Except.error Err.nameError ∧
    (UsdeRoundtrip.main c4_env).2.map Order.is_buy = [true] := by
  refine ⟨by norm_num [c4_env], ?_, ?_⟩ <;>
    simp only [UsdeRoundtrip.main] <;>
    norm_num [c4_env]
